import Mathlib

/-!
Verification of the mcp4x driver core: channel/position validation
(src/device_impl.rs), command encoding (src/lib.rs) and the two bus
transports (src/interface.rs).

Machine integers (`u8`) are modelled as `Nat`; no arithmetic overflow
occurs anywhere in the translated code (only comparisons, bitwise OR of
small constants, and pass-through of byte values), so no `% 256` is
needed.  Fallible Rust functions returning `Result<(), Error<E>>` become
`Except (Error E) Unit`.  Bus traffic is modelled explicitly: each
transport `write_command` returns, besides its result, the list of write
events it performed on the bus, and the generic driver operations are
parameterized by such a write function (the shallow embedding of the
`DI: WriteCommand` type parameter).
-/

namespace Mcp4x

/-- Channel selector (src/lib.rs `Channel`).  The `All` constructor is
referenced by the source (src/device_impl.rs compares `channel == Channel::All`). -/
inductive Channel where
  | Ch0
  | Ch1
  | All
  deriving DecidableEq, Repr

/-- Modelled from the spec: src/lib.rs `Channel::get_bits` has the arms
`Ch0 => 1` and `Ch1 => 2`; the arm for `All` is absent from the src tree
(src/device_impl.rs uses `Channel::All` but the shipped lib.rs predates it),
so its value is the bitwise OR of all channel bits, per spec section 4.2. -/
def Channel.get_bits : Channel → Nat
  | .Ch0 => 1
  | .Ch1 => 2
  | .All => 3

/-- Error type (src/lib.rs `Error<E>`; the variants `WrongChannel`,
`OutOfBounds` and `Unsupported` are constructed by src/device_impl.rs and
src/interface.rs). -/
inductive Error (E : Type) where
  | Comm (e : E)
  | WrongChannel
  | OutOfBounds
  | Unsupported
  deriving DecidableEq, Repr

/-- Commands (src/lib.rs `Command`).  The position is a `u8`, modelled as `Nat`. -/
inductive Command where
  | SetPosition (channel : Channel) (position : Nat)
  | Shutdown (channel : Channel)
  deriving DecidableEq, Repr

/-- src/lib.rs `Command::get_command_byte`. -/
def Command.get_command_byte : Command → Nat
  | .SetPosition channel _ => 0b00010000 ||| channel.get_bits
  | .Shutdown channel => 0b00100000 ||| channel.get_bits

/-- src/lib.rs `Command::get_data_byte`. -/
def Command.get_data_byte : Command → Nat
  | .SetPosition _ position => position
  | .Shutdown _ => 0

/-- Projection of a command onto its (operation, channel) pair; used to state
injectivity of the command-byte encoding per (operation, channel).  `true`
stands for set-position, `false` for shutdown. -/
def Command.operation_and_channel : Command → Bool × Channel
  | .SetPosition channel _ => (true, channel)
  | .Shutdown channel => (false, channel)

/-- Device-variant markers (src/lib.rs `ic` module: `Mcp401x`, `Mcp41x`,
`Mcp42x`).  Rust selects the rule set by a zero-size type parameter; the
shallow embedding carries the variant as a value. -/
inductive IC where
  | Mcp401x
  | Mcp41x
  | Mcp42x
  deriving DecidableEq, Repr

/-- src/device_impl.rs `CheckParameters::check_if_channel_is_appropriate`,
one arm per `impl` block. -/
def check_if_channel_is_appropriate (E : Type) (ic : IC) (channel : Channel) :
    Except (Error E) Unit :=
  match ic with
  | .Mcp401x =>
      if channel = Channel.Ch0 ∨ channel = Channel.All then Except.ok ()
      else Except.error Error.WrongChannel
  | .Mcp41x =>
      if channel = Channel.Ch0 ∨ channel = Channel.All then Except.ok ()
      else Except.error Error.WrongChannel
  | .Mcp42x => Except.ok ()

/-- src/device_impl.rs `CheckParameters::check_if_position_is_appropriate`,
one arm per `impl` block. -/
def check_if_position_is_appropriate (E : Type) (ic : IC) (position : Nat) :
    Except (Error E) Unit :=
  match ic with
  | .Mcp401x =>
      if position ≤ 127 then Except.ok () else Except.error Error.OutOfBounds
  | .Mcp41x => Except.ok ()
  | .Mcp42x => Except.ok ()

/-- src/device_impl.rs `Mcp4x::set_position`.  The interface's
`write_command` is passed in as a function returning its result together
with the list of bus-write events it performed; the `?` operator becomes
an explicit match, and a failed check performs no write. -/
def set_position {E W : Type} (ic : IC)
    (write_command : Command → Except (Error E) Unit × List W)
    (channel : Channel) (position : Nat) : Except (Error E) Unit × List W :=
  match check_if_channel_is_appropriate E ic channel with
  | .error e => (.error e, [])
  | .ok _ =>
      match check_if_position_is_appropriate E ic position with
      | .error e => (.error e, [])
      | .ok _ => write_command (Command.SetPosition channel position)

/-- src/device_impl.rs `Mcp4x::shutdown`. -/
def shutdown {E W : Type} (ic : IC)
    (write_command : Command → Except (Error E) Unit × List W)
    (channel : Channel) : Except (Error E) Unit × List W :=
  match check_if_channel_is_appropriate E ic channel with
  | .error e => (.error e, [])
  | .ok _ => write_command (Command.Shutdown channel)

/-- SPI bus-write event: the byte payload of one `spi.write` call. -/
def SpiWrite : Type := List Nat

/-- src/interface.rs `SpiInterface::write_command`.  The underlying
`spi.write` is one bus write of the two-byte payload; its outcome is the
oracle `busResult`, and a failure is wrapped in `Error::Comm`. -/
def SpiInterface.write_command {E : Type} (busResult : Except E Unit)
    (command : Command) : Except (Error E) Unit × List SpiWrite :=
  (match busResult with
   | .ok _ => .ok ()
   | .error e => .error (Error.Comm e),
   [[command.get_command_byte, command.get_data_byte]])

/-- src/interface.rs: the fixed 7-bit I2C device address `ADDRESS`. -/
def I2C_ADDRESS : Nat := 0b0101111

/-- I2C bus-write event: the target address and byte payload of one
`i2c.write` call. -/
def I2cWrite : Type := Nat × List Nat

/-- src/interface.rs `I2cInterface::write_command`:  set-position writes the
single position byte to the fixed address; shutdown fails with `Unsupported`
and performs no write. -/
def I2cInterface.write_command {E : Type} (busResult : Except E Unit)
    (command : Command) : Except (Error E) Unit × List I2cWrite :=
  match command with
  | .SetPosition _ position =>
      (match busResult with
       | .ok _ => .ok ()
       | .error e => .error (Error.Comm e),
       [(I2C_ADDRESS, [position])])
  | .Shutdown _ => (.error Error.Unsupported, [])

/-- src/lib.rs `Mcp4x<DI, IC>`: the driver handle owns exactly the bus
interface; the IC marker is a phantom parameter. -/
structure Mcp4x (DI : Type) (ic : IC) where
  iface : DI

/-- src/interface.rs `SpiInterface<SPI>`: owns the SPI bus instance. -/
structure SpiInterface (SPI : Type) where
  spi : SPI

/-- src/interface.rs `I2cInterface<I2C>`: owns the I2C bus instance. -/
structure I2cInterface (I2C : Type) where
  i2c : I2C

/-- src/device_impl.rs `Mcp4x::new_mcp401x`. -/
def new_mcp401x {I : Type} (i2c : I) : Mcp4x (I2cInterface I) IC.Mcp401x :=
  ⟨⟨i2c⟩⟩

/-- src/device_impl.rs `Mcp4x::destroy_mcp401x`. -/
def destroy_mcp401x {I : Type} (d : Mcp4x (I2cInterface I) IC.Mcp401x) : I :=
  d.iface.i2c

/-- src/device_impl.rs `Mcp4x::new_mcp41x`. -/
def new_mcp41x {S : Type} (spi : S) : Mcp4x (SpiInterface S) IC.Mcp41x :=
  ⟨⟨spi⟩⟩

/-- src/device_impl.rs `Mcp4x::destroy_mcp41x`. -/
def destroy_mcp41x {S : Type} (d : Mcp4x (SpiInterface S) IC.Mcp41x) : S :=
  d.iface.spi

/-- src/device_impl.rs `Mcp4x::new_mcp42x`. -/
def new_mcp42x {S : Type} (spi : S) : Mcp4x (SpiInterface S) IC.Mcp42x :=
  ⟨⟨spi⟩⟩

/-- src/device_impl.rs `Mcp4x::destroy_mcp42x`. -/
def destroy_mcp42x {S : Type} (d : Mcp4x (SpiInterface S) IC.Mcp42x) : S :=
  d.iface.spi

/-- Valid-channel table of spec section 4.1, written from the spec's words
for comparison with the source's checks. -/
def spec_validChannels : IC → List Channel
  | .Mcp401x => [.Ch0, .All]
  | .Mcp41x => [.Ch0, .All]
  | .Mcp42x => [.Ch0, .Ch1, .All]

/-- Valid-position predicate of spec section 4.1, written from the spec's
words for comparison with the source's checks. -/
def spec_positionValid : IC → Nat → Prop
  | .Mcp401x, p => p ≤ 127
  | .Mcp41x, _ => True
  | .Mcp42x, _ => True

end Mcp4x

namespace Mcp4x

/-- C1: for every device variant and every channel, the channel check
succeeds exactly when the channel is in the variant's valid-channel set
from the spec-4.1 table, and fails with `WrongChannel` otherwise. -/
theorem channel_check_matches_table (E : Type) (v : IC) (c : Channel) :
    (check_if_channel_is_appropriate E v c = Except.ok () ↔
      c ∈ spec_validChannels v) ∧
    (c ∉ spec_validChannels v →
      check_if_channel_is_appropriate E v c = Except.error Error.WrongChannel) := by
  cases v <;> cases c <;>
    simp [check_if_channel_is_appropriate, spec_validChannels]

/-- C2: for every device variant and every position, the position check
succeeds exactly when the position is within the variant's accepted range
(at most 127 for Mcp401x, unrestricted for Mcp41x and Mcp42x), and fails
with `OutOfBounds` otherwise. -/
theorem position_check_matches_table (E : Type) (v : IC) (p : Nat) :
    (check_if_position_is_appropriate E v p = Except.ok () ↔
      spec_positionValid v p) ∧
    (¬ spec_positionValid v p →
      check_if_position_is_appropriate E v p = Except.error Error.OutOfBounds) := by
  cases v
  · simp only [check_if_position_is_appropriate, spec_positionValid]
    by_cases h : p ≤ 127 <;> simp [h]
  · simp [check_if_position_is_appropriate, spec_positionValid]
  · simp [check_if_position_is_appropriate, spec_positionValid]

/-- C3: the command-byte/data-byte encoding is deterministic (it is a
function) and injective per (operation, channel) pair, with the exact
values: `SetPosition(Ch0, p)` gives command byte `0b00010001` and data byte
`p`; `SetPosition(Ch1, p)` gives `0b00010010` and `p`; `Shutdown(Ch0)` gives
`0b00100001` and `0`; `Shutdown(Ch1)` gives `0b00100010` and `0`. -/
theorem command_encoding_exact_and_injective (p : Nat) :
    (Command.SetPosition Channel.Ch0 p).get_command_byte = 0b00010001 ∧
    (Command.SetPosition Channel.Ch0 p).get_data_byte = p ∧
    (Command.SetPosition Channel.Ch1 p).get_command_byte = 0b00010010 ∧
    (Command.SetPosition Channel.Ch1 p).get_data_byte = p ∧
    (Command.Shutdown Channel.Ch0).get_command_byte = 0b00100001 ∧
    (Command.Shutdown Channel.Ch0).get_data_byte = 0 ∧
    (Command.Shutdown Channel.Ch1).get_command_byte = 0b00100010 ∧
    (Command.Shutdown Channel.Ch1).get_data_byte = 0 ∧
    ∀ c1 c2 : Command, c1.get_command_byte = c2.get_command_byte →
      c1.operation_and_channel = c2.operation_and_channel := by
  refine ⟨rfl, rfl, rfl, rfl, rfl, rfl, rfl, rfl, ?_⟩
  intro c1 c2 h
  cases c1 with
  | SetPosition ch1 p1 =>
    cases c2 with
    | SetPosition ch2 p2 =>
      cases ch1 <;> cases ch2 <;>
        first
          | rfl
          | (simp only [Command.get_command_byte, Channel.get_bits] at h
             exact absurd h (by decide))
    | Shutdown ch2 =>
      cases ch1 <;> cases ch2 <;>
        (simp only [Command.get_command_byte, Channel.get_bits] at h
         exact absurd h (by decide))
  | Shutdown ch1 =>
    cases c2 with
    | SetPosition ch2 p2 =>
      cases ch1 <;> cases ch2 <;>
        (simp only [Command.get_command_byte, Channel.get_bits] at h
         exact absurd h (by decide))
    | Shutdown ch2 =>
      cases ch1 <;> cases ch2 <;>
        first
          | rfl
          | (simp only [Command.get_command_byte, Channel.get_bits] at h
             exact absurd h (by decide))

/-- C4: in `set_position`, the channel check precedes the position check:
on either bus transport, the result is `WrongChannel` exactly when the
channel check fails (regardless of the position), and `OutOfBounds`
exactly when the channel check succeeds and the position check fails. -/
theorem set_position_check_order (E : Type) (busResult : Except E Unit)
    (v : IC) (c : Channel) (p : Nat) :
    ((set_position v (SpiInterface.write_command busResult) c p).1 =
        Except.error Error.WrongChannel ↔
      check_if_channel_is_appropriate E v c = Except.error Error.WrongChannel) ∧
    ((set_position v (SpiInterface.write_command busResult) c p).1 =
        Except.error Error.OutOfBounds ↔
      check_if_channel_is_appropriate E v c = Except.ok () ∧
        check_if_position_is_appropriate E v p = Except.error Error.OutOfBounds) ∧
    ((set_position v (I2cInterface.write_command busResult) c p).1 =
        Except.error Error.WrongChannel ↔
      check_if_channel_is_appropriate E v c = Except.error Error.WrongChannel) ∧
    ((set_position v (I2cInterface.write_command busResult) c p).1 =
        Except.error Error.OutOfBounds ↔
      check_if_channel_is_appropriate E v c = Except.ok () ∧
        check_if_position_is_appropriate E v p = Except.error Error.OutOfBounds) := by
  cases v <;> cases c <;>
    by_cases h : p ≤ 127 <;>
    cases busResult <;>
    simp [set_position, check_if_channel_is_appropriate,
      check_if_position_is_appropriate, SpiInterface.write_command,
      I2cInterface.write_command, h]

/-- C5: a failing channel or position check triggers zero bus writes: on
any validation failure, `set_position` and `shutdown` return before the
transport's `write_command` is invoked, so the bus-write log is empty. -/
theorem no_bus_write_on_check_failure {E W : Type}
    (write_command : Command → Except (Error E) Unit × List W)
    (v : IC) (c : Channel) (p : Nat) :
    (check_if_channel_is_appropriate E v c ≠ Except.ok () ∨
        check_if_position_is_appropriate E v p ≠ Except.ok () →
      (set_position v write_command c p).2 = []) ∧
    (check_if_channel_is_appropriate E v c ≠ Except.ok () →
      (shutdown v write_command c).2 = []) := by
  constructor
  · intro h
    unfold set_position
    rcases hc : check_if_channel_is_appropriate E v c with e | u
    · rfl
    · rcases hp : check_if_position_is_appropriate E v p with e | u
      · rfl
      · rcases h with h | h
        · exact absurd hc h
        · exact absurd hp h
  · intro h
    unfold shutdown
    rcases hc : check_if_channel_is_appropriate E v c with e | u
    · rfl
    · exact absurd hc h

/-- C5 witness: on the Mcp401x variant, channel `Ch1` fails the channel
check, and both `set_position` and `shutdown` over the SPI transport then
produce an empty bus-write log. -/
theorem no_bus_write_on_check_failure_witness :
    check_if_channel_is_appropriate Unit IC.Mcp401x Channel.Ch1 ≠ Except.ok () ∧
    (set_position IC.Mcp401x
      (SpiInterface.write_command ((Except.ok ()) : Except Unit Unit))
      Channel.Ch1 200).2 = [] ∧
    (shutdown IC.Mcp401x
      (SpiInterface.write_command ((Except.ok ()) : Except Unit Unit))
      Channel.Ch1).2 = [] :=
  ⟨by simp [check_if_channel_is_appropriate],
   (no_bus_write_on_check_failure
      (SpiInterface.write_command ((Except.ok ()) : Except Unit Unit))
      IC.Mcp401x Channel.Ch1 200).1
     (Or.inl (by simp [check_if_channel_is_appropriate])),
   (no_bus_write_on_check_failure
      (SpiInterface.write_command ((Except.ok ()) : Except Unit Unit))
      IC.Mcp401x Channel.Ch1 200).2
     (by simp [check_if_channel_is_appropriate])⟩

/-- C6: on the two-wire transport, `write_command` for a set-position
command performs exactly one bus write, of the single position byte, to
the fixed 7-bit address `0b0101111`; `write_command` for a shutdown
command always fails with `Unsupported` and performs zero bus writes,
for every channel. -/
theorem i2c_write_command_behaviour (E : Type) (busResult : Except E Unit)
    (c : Channel) (p : Nat) :
    (I2cInterface.write_command busResult (Command.SetPosition c p)).2 =
      [(0b0101111, [p])] ∧
    I2cInterface.write_command busResult (Command.Shutdown c) =
      (Except.error Error.Unsupported, []) := by
  cases c <;> exact ⟨rfl, rfl⟩

/-- C7: on the SPI transport, every command results in exactly one bus
write, of exactly the two bytes `[command_byte, data_byte]` in that order. -/
theorem spi_write_command_payload (E : Type) (busResult : Except E Unit)
    (command : Command) :
    (SpiInterface.write_command busResult command).2 =
      [[command.get_command_byte, command.get_data_byte]] := rfl

/-- C8: for every variant, constructing a driver handle from a bus
transport instance and immediately destroying it returns exactly the
transport instance supplied at construction. -/
theorem construct_destroy_roundtrip (B : Type) (b : B) :
    destroy_mcp401x (new_mcp401x b) = b ∧
    destroy_mcp41x (new_mcp41x b) = b ∧
    destroy_mcp42x (new_mcp42x b) = b :=
  ⟨rfl, rfl, rfl⟩

/-- C9: a broadcast (`All`) request on the dual-channel Mcp42x is encoded
as one combined command whose channel bits are the bitwise OR of all
channel bits (`0b11`): both set-position and shutdown produce exactly one
SPI frame, and in both frames the `Ch0` bit (bit 0) and the `Ch1` bit
(bit 1) of the command byte are set. -/
theorem all_channels_broadcast_combined (E : Type) (busResult : Except E Unit)
    (p : Nat) :
    Channel.All.get_bits = (Channel.Ch0.get_bits ||| Channel.Ch1.get_bits) ∧
    (set_position IC.Mcp42x (SpiInterface.write_command busResult)
        Channel.All p).2 = [[0b00010011, p]] ∧
    (shutdown IC.Mcp42x (SpiInterface.write_command busResult)
        Channel.All).2 = [[0b00100011, 0]] ∧
    Nat.testBit 0b00010011 0 = true ∧ Nat.testBit 0b00010011 1 = true ∧
    Nat.testBit 0b00100011 0 = true ∧ Nat.testBit 0b00100011 1 = true := by
  refine ⟨by decide, ?_, ?_, by decide, by decide, by decide, by decide⟩ <;>
    simp [set_position, shutdown, check_if_channel_is_appropriate,
      check_if_position_is_appropriate, SpiInterface.write_command,
      Command.get_command_byte, Command.get_data_byte, Channel.get_bits]

/-- C10: on the two-wire transport, the bus traffic and result of a
set-position command are independent of the channel argument: any two
channels produce identical writes to the identical address. -/
theorem i2c_set_position_channel_independent (E : Type)
    (busResult : Except E Unit) (c1 c2 : Channel) (p : Nat) :
    I2cInterface.write_command busResult (Command.SetPosition c1 p) =
    I2cInterface.write_command busResult (Command.SetPosition c2 p) := rfl

end Mcp4x
